import Mathlib

/-!
Formal model of the resilience layer of a Go client library for the
Firefly III HTTP API: error classification, token-bucket rate limiter
construction, middleware chain, exponential-backoff retry engine,
OAuth2 configuration validation, and the webhook dispatcher.

Modelling conventions:
* Go `time.Duration` values (int64 nanoseconds) and `float64` arithmetic
  are modelled over `ℚ` (exact arithmetic; the final float-to-Duration
  truncation is not modelled).
* `mathrand.Float64()` is modelled as an explicit parameter `u : ℚ`
  with `0 ≤ u < 1`.
* Go contexts are modelled as a monotone-in-intent boolean signal
  `done : ℕ → Bool`, sampled once per context checkpoint of the code.
* Go errors are modelled by the inductive `GoError`; `nil` errors by
  `Option GoError` with `none` for `nil`.
-/

namespace Firefly

/-- The classification an HTTP error response is mapped to, identified by
the error-constructor the Go code calls (`AuthenticationErr`,
`AuthorizationErr`, `NotFoundErr`, `DuplicateErr`, `RateLimitErr`,
`ServerErr`, `ClientErr`, `TimeoutErr`). -/
inductive ErrClass
  | authentication
  | authorization
  | notFound
  | duplicate
  | rateLimit
  | server
  | client
  | timeout
  deriving DecidableEq

/-- Embedding of `HTTPErrorFromResponse` (errors.go): the status-code
switch that picks the error constructor.  Cases in source order:
401, 403, 404, 429, then 500/502/503, then the default branch
(4xx to client, everything else to server). -/
def HTTPErrorFromResponse (statusCode : ℕ) : ErrClass :=
  if statusCode = 401 then .authentication
  else if statusCode = 403 then .authorization
  else if statusCode = 404 then .notFound
  else if statusCode = 429 then .rateLimit
  else if statusCode = 500 ∨ statusCode = 502 ∨ statusCode = 503 then .server
  else if 400 ≤ statusCode ∧ statusCode < 500 then .client
  else .server

/-- The status-code table exactly as the specification states it:
401 auth; 403 authorization; 404 not-found; 409 duplicate; 429
rate-limit; 500/502/503/504 server; 408 timeout; other 4xx client;
other at least 500 server.  Written from the specification text, to be
compared with the embedding of the source. -/
def specStatusMapping (c : ℕ) : ErrClass :=
  if c = 401 then .authentication
  else if c = 403 then .authorization
  else if c = 404 then .notFound
  else if c = 409 then .duplicate
  else if c = 429 then .rateLimit
  else if c = 500 ∨ c = 502 ∨ c = 503 ∨ c = 504 then .server
  else if c = 408 then .timeout
  else if 400 ≤ c ∧ c < 500 then .client
  else .server

/-- The status-code table as the source actually implements it: like the
specification table but with no special case for 409 or 408, which
therefore fall into the generic 4xx client-error branch. -/
def specStatusMappingAmended (c : ℕ) : ErrClass :=
  if c = 401 then .authentication
  else if c = 403 then .authorization
  else if c = 404 then .notFound
  else if c = 429 then .rateLimit
  else if c = 500 ∨ c = 502 ∨ c = 503 ∨ c = 504 then .server
  else if 400 ≤ c ∧ c < 500 then .client
  else .server

/-- Error code string `ErrNetwork` from errors.go. -/
def ErrNetwork : String := "network_error"

/-- Error code string `ErrTimeout` from errors.go. -/
def ErrTimeout : String := "timeout_error"

/-- Error code string `ErrServerError` from errors.go. -/
def ErrServerError : String := "server_error"

/-- Error code string `ErrRateLimit` from errors.go. -/
def ErrRateLimit : String := "rate_limit"

/-- Go error values the retry engine inspects: `*HTTPError` values,
the two context sentinel errors, and arbitrary other errors carrying
only their message. -/
inductive GoError
  | httpError (statusCode : ℕ) (method url took : String)
  | contextCanceled
  | contextDeadlineExceeded
  | stringError (msg : String)
  deriving DecidableEq

/-- The `Error()` rendering of a `GoError`: `HTTPError.Error` formats
as in errors.go; the context sentinels render as in the Go standard
library. -/
def goErrorMessage : GoError → String
  | .httpError code method url took =>
      "HTTP " ++ toString code ++ ": " ++ method ++ " " ++ url ++ " (took " ++ took ++ ")"
  | .contextCanceled => "context canceled"
  | .contextDeadlineExceeded => "context deadline exceeded"
  | .stringError msg => msg

/-- Whether the first list is an initial segment of the second. -/
def charListStartsWith : List Char → List Char → Bool
  | [], _ => true
  | _ :: _, [] => false
  | a :: as, b :: bs => a == b && charListStartsWith as bs

/-- Whether `sub` occurs contiguously inside `s`; model of Go
`strings.Contains s sub`. -/
def charListContains (sub : List Char) : List Char → Bool
  | [] => charListStartsWith sub []
  | c :: t => charListStartsWith sub (c :: t) || charListContains sub t

/-- Model of Go `strings.Contains`. -/
def stringContains (s sub : String) : Bool :=
  charListContains sub.toList s.toList

/-- Embedding of the Go `RetryConfig` struct.  `MaxRetries` is a Go
`int` (modelled as `ℤ`); the two delays are `time.Duration`
nanosecond counts and `BackoffFactor` a `float64`, all modelled as
`ℚ`. -/
structure RetryConfig where
  MaxRetries : ℤ
  InitialDelay : ℚ
  MaxDelay : ℚ
  BackoffFactor : ℚ
  RetryableErrors : List String

/-- Embedding of `DefaultRetryConfig`: 3 retries, 1s initial delay,
30s max delay, factor 2, and the four retryable error-code strings. -/
def DefaultRetryConfig : RetryConfig :=
  { MaxRetries := 3
    InitialDelay := 1000000000
    MaxDelay := 30000000000
    BackoffFactor := 2
    RetryableErrors := [ErrNetwork, ErrTimeout, ErrServerError, ErrRateLimit] }

/-- Embedding of `RetryConfig.isRetryableError`: nil is not retryable;
an `*HTTPError` with status 429/500/502/503/504/408 is retryable;
the context sentinels are retryable; otherwise the error message is
scanned for any of the configured retryable error-code substrings. -/
def RetryConfig.isRetryableError (r : RetryConfig) (err : Option GoError) : Bool :=
  match err with
  | none => false
  | some e =>
    let httpRetryable : Bool :=
      match e with
      | .httpError code _ _ _ =>
          code == 429 || code == 500 || code == 502 || code == 503 || code == 504 || code == 408
      | _ => false
    if httpRetryable then true
    else if e == .contextDeadlineExceeded || e == .contextCanceled then true
    else r.RetryableErrors.any (fun s => stringContains (goErrorMessage e) s)

/-- Embedding of `RetryConfig.calculateBackoffDelay`.  `attempt` is a Go
`int`; `u` models the `mathrand.Float64()` sample in `[0,1)`.  The Go
float arithmetic is carried out exactly over `ℚ` and the final
float-to-`time.Duration` truncation is not modelled. -/
def RetryConfig.calculateBackoffDelay (r : RetryConfig) (u : ℚ) (attempt : ℤ) : ℚ :=
  if attempt ≤ 0 then r.InitialDelay
  else
    let raw := r.InitialDelay * r.BackoffFactor ^ attempt.toNat
    let delay := if raw > r.MaxDelay then r.MaxDelay else raw
    let jitter := delay * (1/10) * (1/2 - u)
    delay + jitter

/-- The planned (pre-jitter) delay named by the specification:
`min(initialDelay * backoffFactor ^ attempt, maxDelay)`. -/
def plannedDelay (r : RetryConfig) (attempt : ℤ) : ℚ :=
  min (r.InitialDelay * r.BackoffFactor ^ attempt.toNat) r.MaxDelay

/-- Terminal outcome of `RetryOperation`: success, the context's own
error (from `ctx.Err()`), or the last operation failure. -/
inductive RetryOutcome
  | success
  | ctxError
  | failure (e : GoError)
  deriving DecidableEq

/-- Result of a `RetryOperation` run together with the number of times
the wrapped operation was invoked. -/
structure RetryResultT where
  outcome : RetryOutcome
  invocations : ℕ
  deriving DecidableEq

/-- One-to-one embedding of the `for attempt := 0; attempt <= MaxRetries`
loop body of `RetryOperation`.  `fuel` counts the loop iterations still
permitted by the loop condition, `t` indexes the context checkpoints
(the pre-attempt `select` samples `done t`, the backoff-wait `select`
samples `done (t+1)`), `invs` counts operation invocations so far and
`op i` is the result of the i-th invocation (`none` for success).
Exhausted fuel is the loop condition failing, which in Go returns
`lastErr`. -/
def retryLoop (r : RetryConfig) (done : ℕ → Bool) (op : ℕ → Option GoError) :
    ℕ → ℤ → ℕ → ℕ → Option GoError → RetryResultT
  | 0, _, _, invs, lastErr =>
      { outcome := match lastErr with
          | none => .success
          | some e => .failure e
        invocations := invs }
  | fuel + 1, attempt, t, invs, _ =>
      if done t then { outcome := .ctxError, invocations := invs }
      else
        match op invs with
        | none => { outcome := .success, invocations := invs + 1 }
        | some e =>
          if attempt = r.MaxRetries then { outcome := .failure e, invocations := invs + 1 }
          else if ¬ r.isRetryableError (some e) then
            { outcome := .failure e, invocations := invs + 1 }
          else if done (t + 1) then { outcome := .ctxError, invocations := invs + 1 }
          else retryLoop r done op fuel (attempt + 1) (t + 2) (invs + 1) (some e)

/-- Embedding of `RetryOperation`: runs the retry loop from attempt 0
with enough fuel for `MaxRetries + 1` iterations (zero when
`MaxRetries` is negative, in which case the Go loop never runs and
the nil `lastErr` is returned as success). -/
def RetryOperation (r : RetryConfig) (done : ℕ → Bool) (op : ℕ → Option GoError) :
    RetryResultT :=
  retryLoop r done op (r.MaxRetries + 1).toNat 0 0 0 none

/-- A middleware: the two capabilities of the Go `Middleware` interface,
with failure as `Except`. -/
structure GMiddleware (Req Resp E : Type) where
  ProcessRequest : Req → Except E Req
  ProcessResponse : Resp → Except E Resp

/-- Embedding of the Go `MiddlewareChain` struct: the ordered middleware
list (the `sync.RWMutex` guards a single snapshot per call and is not
modelled). -/
structure MiddlewareChain (Req Resp E : Type) where
  middlewares : List (GMiddleware Req Resp E)

/-- Embedding of `NewMiddlewareChain`: empty middleware list. -/
def NewMiddlewareChain (Req Resp E : Type) : MiddlewareChain Req Resp E :=
  { middlewares := [] }

/-- Embedding of `MiddlewareChain.Add`: append at the back. -/
def MiddlewareChain.Add (c : MiddlewareChain Req Resp E) (m : GMiddleware Req Resp E) :
    MiddlewareChain Req Resp E :=
  { middlewares := c.middlewares ++ [m] }

/-- The forward loop shared by request and response processing: apply
each middleware hook in list order to the accumulated value, aborting
on the first error. -/
def processForward (hook : GMiddleware Req Resp E → α → Except E α)
    (mws : List (GMiddleware Req Resp E)) (x : α) : Except E α :=
  match mws with
  | [] => .ok x
  | m :: rest =>
    match hook m x with
    | .error e => .error e
    | .ok y => processForward hook rest y

/-- Embedding of `MiddlewareChain.ProcessRequest`: the `for _, middleware
:= range m.middlewares` loop, front to back, aborting on error. -/
def MiddlewareChain.ProcessRequest (c : MiddlewareChain Req Resp E) (req : Req) :
    Except E Req :=
  processForward (fun m => m.ProcessRequest) c.middlewares req

/-- Embedding of `MiddlewareChain.ProcessResponse`: the index loop from
`len-1` down to `0`, i.e. the forward loop over the reversed list,
aborting on error. -/
def MiddlewareChain.ProcessResponse (c : MiddlewareChain Req Resp E) (resp : Resp) :
    Except E Resp :=
  processForward (fun m => m.ProcessResponse) c.middlewares.reverse resp

/-- Embedding of the `WebhookEvent` struct.  The opaque
`map[string]interface{}` data and metadata are modelled as opaque
key-value string lists; the RFC3339 timestamp as an integer.  The Go
field `Type` is named `EventType` here because `Type` is reserved. -/
structure WebhookEvent where
  ID : String
  EventType : String
  Timestamp : ℤ
  Data : List (String × String)
  Metadata : List (String × String)

/-- A webhook handler: the `HandleEvent` capability, returning `none`
for success and `some e` for failure. -/
def WebhookHandler : Type := WebhookEvent → Option GoError

/-- Embedding of the `WebhookManager` struct: the Go
`map[string][]WebhookHandler` as a function to an optional handler
list (`none` when the key is absent; the `sync.RWMutex` is not
modelled). -/
structure WebhookManager where
  handlers : String → Option (List WebhookHandler)

/-- Embedding of `NewWebhookManager`: an empty handler map. -/
def NewWebhookManager : WebhookManager :=
  { handlers := fun _ => none }

/-- Embedding of `WebhookManager.RegisterHandler`:
`w.handlers[eventType] = append(w.handlers[eventType], handler)` —
append to the existing list, creating a singleton entry when the key
was absent. -/
def WebhookManager.RegisterHandler (w : WebhookManager) (eventType : String)
    (h : WebhookHandler) : WebhookManager :=
  { handlers := fun s =>
      if s = eventType then some (((w.handlers eventType).getD []) ++ [h])
      else w.handlers s }

/-- Registering a list of handlers one by one, in order. -/
def registerHandlers (w : WebhookManager) (eventType : String)
    (hs : List WebhookHandler) : WebhookManager :=
  hs.foldl (fun m h => m.RegisterHandler eventType h) w

/-- Terminal outcome of `ProcessWebhook`: the unmarshal failure, the
aggregate error listing every handler failure, or success. -/
inductive WebhookProcessResult
  | unmarshalError
  | success
  | aggregateError (errs : List GoError)
  deriving DecidableEq

/-- Embedding of `WebhookManager.ProcessWebhook`.  The payload is
modelled by its `json.Unmarshal` outcome (`none` for malformed JSON).
The concurrent fan-out that invokes each registered handler once and
joins on the error channel is modelled by mapping each handler over
the event and collecting every failure; the nondeterministic channel
collection order is fixed to registration order.  The second component
records each handler invocation's result (one entry per registered
handler). -/
def WebhookManager.ProcessWebhook (w : WebhookManager) (payload : Option WebhookEvent) :
    WebhookProcessResult × List (Option GoError) :=
  match payload with
  | none => (.unmarshalError, [])
  | some event =>
    match w.handlers event.EventType with
    | none => (.success, [])
    | some hs =>
      let results := hs.map (fun h => h event)
      let errs := results.filterMap id
      (if errs = [] then .success else .aggregateError errs, results)

/-- An inbound HTTP request to the webhook server, as far as
`handleWebhook` inspects it: the method, whether the body could be
read, the body's parse outcome, and whether the payload carries a
valid signature under the configured shared secret (the last field
summarises the signature state of the payload; the source's
`handleWebhook` never consults it). -/
structure InboundRequest where
  method : String
  bodyReadOk : Bool
  parsedBody : Option WebhookEvent
  signatureValid : Bool

/-- Embedding of `WebhookServer.handleWebhook`: non-POST is rejected
with 405, an unreadable body with 400; the signature-verification
block guarded by a non-empty secret is an empty TODO in the source, so
the secret and the signature are never consulted; then
`ProcessWebhook` is always dispatched and its outcome mapped to
500 or 200.  Returns the HTTP status together with whether
`ProcessWebhook` was reached. -/
def handleWebhook (secret : String) (mgr : WebhookManager) (req : InboundRequest) :
    ℕ × Bool :=
  if req.method ≠ "POST" then (405, false)
  else if ¬ req.bodyReadOk then (400, false)
  else
    match (mgr.ProcessWebhook req.parsedBody).1 with
    | .unmarshalError => (500, true)
    | .aggregateError _ => (500, true)
    | .success => (200, true)

/-- Embedding of the `OAuth2Config` struct. -/
structure OAuth2Config where
  ClientID : String
  ClientSecret : String
  Scopes : List String
  RedirectURL : String
  AuthURL : String
  TokenURL : String

/-- Embedding of the `ClientConfig` struct (`Timeout` and `RetryDelay`
as nanosecond counts over `ℚ`, the Go ints over `ℤ`). -/
structure ClientConfig where
  BaseURL : String
  Token : String
  Timeout : ℚ
  RetryCount : ℤ
  RetryDelay : ℚ
  RateLimit : ℤ
  OAuth2 : Option OAuth2Config
  UserAgent : String
  DebugMode : Bool

/-- Embedding of `DefaultClientConfig`: 30s timeout, 3 retries, 1s
retry delay, rate limit 60 (the source comments: requests per minute),
no OAuth2. -/
def DefaultClientConfig : ClientConfig :=
  { BaseURL := ""
    Token := ""
    Timeout := 30000000000
    RetryCount := 3
    RetryDelay := 1000000000
    RateLimit := 60
    OAuth2 := none
    UserAgent := "firefly-client-go/1.0.0"
    DebugMode := false }

/-- The observable state of a `golang.org/x/time/rate` limiter as
constructed: `rate.Limit` is the refill rate in tokens per second,
`burst` the bucket capacity. -/
structure RateLimiterSpec where
  limit : ℚ
  burst : ℤ
  deriving DecidableEq

/-- Embedding of the limiter attachment in `NewFireflyClientWithConfig`
(the rest of the constructor builds HTTP plumbing outside this model):
nil config and empty base URL are rejected; otherwise the client gets
`rate.NewLimiter(rate.Limit(config.RateLimit), 1)`, i.e. a refill rate
of `RateLimit` tokens per second with burst 1. -/
def NewFireflyClientWithConfig (config : Option ClientConfig) :
    Except String RateLimiterSpec :=
  match config with
  | none => .error "client configuration cannot be nil"
  | some c =>
    if c.BaseURL = "" then .error "base URL is required"
    else .ok { limit := (c.RateLimit : ℚ), burst := 1 }

/-- Outcome of the configuration-validation phase of an OAuth2
operation: either an oauth2-kind failure with its machine-readable
sub-code, raised before any network activity, or the operation
proceeds to its main work (a network token exchange for the token
operations, local URL composition for URL generation). -/
inductive OAuth2Outcome
  | failNoNetwork (subcode : String)
  | proceeds
  deriving DecidableEq

/-- Embedding of the validation phase of `GetOAuth2ClientCredentialsToken`:
missing config fails with `oauth2_not_configured`; empty client id,
client secret or token URL fails with `oauth2_configuration_incomplete`;
otherwise the client-credentials exchange is performed. -/
def GetOAuth2ClientCredentialsToken (cfg : Option OAuth2Config) : OAuth2Outcome :=
  match cfg with
  | none => .failNoNetwork "oauth2_not_configured"
  | some c =>
    if c.ClientID = "" ∨ c.ClientSecret = "" ∨ c.TokenURL = "" then
      .failNoNetwork "oauth2_configuration_incomplete"
    else .proceeds

/-- Embedding of the validation phase of `GenerateOAuth2AuthURL`:
missing config fails with `oauth2_not_configured`; empty client id,
auth URL or redirect URL fails with `oauth2_configuration_incomplete`;
otherwise the authorization URL is composed. -/
def GenerateOAuth2AuthURL (cfg : Option OAuth2Config) (state : String) : OAuth2Outcome :=
  match cfg with
  | none => .failNoNetwork "oauth2_not_configured"
  | some c =>
    if c.ClientID = "" ∨ c.AuthURL = "" ∨ c.RedirectURL = "" then
      .failNoNetwork "oauth2_configuration_incomplete"
    else .proceeds

/-- Embedding of the validation phase of `ExchangeOAuth2Code`: only the
presence of the OAuth2 config is checked (`oauth2_not_configured`);
with a present config the code exchange is always attempted, with no
completeness check of the individual fields. -/
def ExchangeOAuth2Code (cfg : Option OAuth2Config) (code state : String) : OAuth2Outcome :=
  match cfg with
  | none => .failNoNetwork "oauth2_not_configured"
  | some _ => .proceeds

/-- Embedding of the validation phase of `RefreshOAuth2Token`: only the
presence of the OAuth2 config is checked (`oauth2_not_configured`);
with a present config the refresh exchange is always attempted, with
no completeness check of the individual fields. -/
def RefreshOAuth2Token (cfg : Option OAuth2Config) (refreshToken : String) : OAuth2Outcome :=
  match cfg with
  | none => .failNoNetwork "oauth2_not_configured"
  | some _ => .proceeds

/-- C1: counterexample.  The spec's table sends 409 to a duplicate
error, but `HTTPErrorFromResponse` has no 409 case and classifies 409
through the generic 4xx branch as a client error. -/
theorem C1_counterexample :
    HTTPErrorFromResponse 409 = ErrClass.client ∧
    specStatusMapping 409 = ErrClass.duplicate ∧
    ErrClass.client ≠ ErrClass.duplicate := by
  decide

/-- C1 (amended): the error classifier maps status codes as the spec's
table except that 409 and 408 carry no special case and fall into the
generic 4xx client-error branch: 401 auth, 403 authorization, 404
not-found, 429 rate-limit, 500/502/503/504 server, every other 4xx
(including 409 and 408) client, every other status server. -/
theorem C1_amended_mapping (c : ℕ) :
    HTTPErrorFromResponse c = specStatusMappingAmended c := by
  unfold HTTPErrorFromResponse specStatusMappingAmended
  split_ifs <;> first | rfl | (exfalso; omega)

/-- C10: for every retry configuration and every attempt at most 0,
`calculateBackoffDelay` returns exactly `InitialDelay`, independent of
the jitter sample and of `MaxDelay` (no capping). -/
theorem C10_backoff_initial (r : RetryConfig) (u : ℚ) (attempt : ℤ)
    (h : attempt ≤ 0) :
    r.calculateBackoffDelay u attempt = r.InitialDelay := by
  unfold RetryConfig.calculateBackoffDelay
  rw [if_pos h]

/-- C10: witness.  With `InitialDelay = 100` exceeding `MaxDelay = 1`,
the first-retry delay still equals `InitialDelay`. -/
theorem C10_backoff_initial_witness :
    RetryConfig.calculateBackoffDelay ⟨3, 100, 1, 2, []⟩ 0 0 = 100 :=
  C10_backoff_initial ⟨3, 100, 1, 2, []⟩ 0 0 (by decide)

/-- C5: counterexample.  A configuration satisfying the claim's stated
field constraints (`maxRetries ≥ 0`, `backoffFactor ≥ 1`) but with
`InitialDelay = 100 > MaxDelay = 1` violates the claimed upper bound
at attempt 0: the delay is 100, far above `MaxDelay * 1.1`. -/
theorem C5_counterexample :
    1 ≤ (⟨3, 100, 1, 2, []⟩ : RetryConfig).BackoffFactor ∧
    0 ≤ (⟨3, 100, 1, 2, []⟩ : RetryConfig).MaxRetries ∧
    RetryConfig.calculateBackoffDelay ⟨3, 100, 1, 2, []⟩ 0 0 = 100 ∧
    ¬ (RetryConfig.calculateBackoffDelay ⟨3, 100, 1, 2, []⟩ 0 0 ≤
        (⟨3, 100, 1, 2, []⟩ : RetryConfig).MaxDelay * (11/10)) := by
  refine ⟨by norm_num, by norm_num, ?_, ?_⟩ <;>
    simp [RetryConfig.calculateBackoffDelay] <;> norm_num

/-- C5 (amended): under the stated field constraints together with the
additional hypothesis `InitialDelay ≤ MaxDelay` (forced by the
counterexample: without it attempt 0 returns an uncapped
`InitialDelay`), for every attempt in `[0, maxRetries]` and every
jitter sample in `[0,1)` the computed delay is at most
`MaxDelay * 1.1` and at least `max 0 (plannedDelay * 0.9)`. -/
theorem C5_amended_backoff_bounds (r : RetryConfig) (u : ℚ) (attempt : ℤ)
    (hBF : 1 ≤ r.BackoffFactor) (hI0 : 0 ≤ r.InitialDelay)
    (hIM : r.InitialDelay ≤ r.MaxDelay)
    (hu0 : 0 ≤ u) (hu1 : u < 1)
    (ha0 : 0 ≤ attempt) (haM : attempt ≤ r.MaxRetries) :
    r.calculateBackoffDelay u attempt ≤ r.MaxDelay * (11/10) ∧
    max 0 (plannedDelay r attempt * (9/10)) ≤ r.calculateBackoffDelay u attempt := by
  have hM0 : (0:ℚ) ≤ r.MaxDelay := le_trans hI0 hIM
  have hB0 : (0:ℚ) ≤ r.BackoffFactor := le_trans zero_le_one hBF
  by_cases h : attempt ≤ 0
  · have h0 : attempt.toNat = 0 := by omega
    unfold RetryConfig.calculateBackoffDelay plannedDelay
    rw [if_pos h, h0, pow_zero, mul_one, min_eq_left hIM]
    refine ⟨by linarith, max_le (by linarith) (by linarith)⟩
  · simp only [RetryConfig.calculateBackoffDelay, plannedDelay]
    rw [if_neg h]
    set R := r.InitialDelay * r.BackoffFactor ^ attempt.toNat with hR
    have hR0 : 0 ≤ R := mul_nonneg hI0 (pow_nonneg hB0 _)
    set D := if R > r.MaxDelay then r.MaxDelay else R with hD
    have hDmin : D = min R r.MaxDelay := by
      rcases le_or_lt R r.MaxDelay with hc | hc
      · rw [hD, if_neg (not_lt.mpr hc), min_eq_left hc]
      · rw [hD, if_pos hc, min_eq_right hc.le]
    have hD0 : 0 ≤ D := by
      rw [hDmin]; exact le_min hR0 hM0
    have hDM : D ≤ r.MaxDelay := by
      rw [hDmin]; exact min_le_right _ _
    have hDu : D * u ≤ D := by
      calc D * u ≤ D * 1 := mul_le_mul_of_nonneg_left hu1.le hD0
        _ = D := mul_one D
    have hDu0 : 0 ≤ D * u := mul_nonneg hD0 hu0
    constructor
    · nlinarith [hDu0, hDM, hM0]
    · rw [← hDmin]
      refine max_le ?_ ?_ <;> nlinarith [hDu, hD0]

/-- C5: witness.  The default retry configuration at attempt 1 with a
zero jitter sample satisfies both amended bounds. -/
theorem C5_amended_backoff_bounds_witness :
    DefaultRetryConfig.calculateBackoffDelay 0 1 ≤ DefaultRetryConfig.MaxDelay * (11/10) ∧
    max 0 (plannedDelay DefaultRetryConfig 1 * (9/10)) ≤
      DefaultRetryConfig.calculateBackoffDelay 0 1 :=
  C5_amended_backoff_bounds DefaultRetryConfig 0 1
    (by norm_num [DefaultRetryConfig]) (by norm_num [DefaultRetryConfig])
    (by norm_num [DefaultRetryConfig]) le_rfl (by norm_num)
    (by decide) (by decide)

/-- Each pass through the retry loop performs at most one operation
invocation, so the invocation count is bounded by the starting count
plus the remaining fuel. -/
theorem retryLoop_invocations_le (r : RetryConfig) (done : ℕ → Bool)
    (op : ℕ → Option GoError) :
    ∀ (fuel : ℕ) (attempt : ℤ) (t invs : ℕ) (lastErr : Option GoError),
      (retryLoop r done op fuel attempt t invs lastErr).invocations ≤ invs + fuel := by
  intro fuel
  induction fuel with
  | zero =>
    intro attempt t invs lastErr
    simp [retryLoop]
  | succ n ih =>
    intro attempt t invs lastErr
    simp only [retryLoop]
    split_ifs with h0 h1 h3
    · show invs ≤ invs + (n + 1); omega
    all_goals
      split
    all_goals
      try rename_i e heq
    all_goals
      try split_ifs
    all_goals
      first
        | (show invs ≤ invs + (n + 1); omega)
        | (show invs + 1 ≤ invs + (n + 1); omega)
        | exact le_trans (ih (attempt + 1) (t + 2) (invs + 1) (some e)) (by omega)

/-- C4: counterexample.  The claim says `isRetryableError` returns
false on the context-cancelled error; on the default configuration
(and any other) it returns true — the source and its own test treat
`context.Canceled` as retryable. -/
theorem C4_counterexample :
    DefaultRetryConfig.isRetryableError (some GoError.contextCanceled) = true := by
  decide

/-- C4 (amended): `isRetryableError` classifies the context-cancelled
error as retryable (returns true for every configuration);
nevertheless the retry engine never re-invokes the operation once the
context reports done: an iteration entered with the context already
done returns the context's error with no further invocation, and an
iteration whose backoff-wait observes the context done performs at
most the one in-flight invocation. -/
theorem C4_amended_cancellation :
    (∀ r : RetryConfig, r.isRetryableError (some GoError.contextCanceled) = true) ∧
    (∀ (r : RetryConfig) (done : ℕ → Bool) (op : ℕ → Option GoError)
        (fuel : ℕ) (attempt : ℤ) (t invs : ℕ) (lastErr : Option GoError),
        done t = true →
        retryLoop r done op (fuel + 1) attempt t invs lastErr =
          { outcome := RetryOutcome.ctxError, invocations := invs }) ∧
    (∀ (r : RetryConfig) (done : ℕ → Bool) (op : ℕ → Option GoError)
        (fuel : ℕ) (attempt : ℤ) (t invs : ℕ) (lastErr : Option GoError),
        done (t + 1) = true →
        (retryLoop r done op (fuel + 1) attempt t invs lastErr).invocations ≤ invs + 1) := by
  refine ⟨fun r => rfl, ?_, ?_⟩
  · intro r done op fuel attempt t invs lastErr h
    simp [retryLoop, h]
  · intro r done op fuel attempt t invs lastErr h
    simp only [retryLoop]
    split_ifs with h0 h1 h3
    all_goals
      try exact absurd h (by assumption)
    · show invs ≤ invs + 1; omega
    all_goals
      split
    all_goals
      try split_ifs
    all_goals
      first
        | (show invs ≤ invs + 1; omega)
        | (show invs + 1 ≤ invs + 1; omega)

/-- C4: witness.  With a context that is already done, the loop returns
the context error without invoking the operation; and the classifier
marks the cancelled error retryable. -/
theorem C4_amended_cancellation_witness :
    DefaultRetryConfig.isRetryableError (some GoError.contextCanceled) = true ∧
    retryLoop DefaultRetryConfig (fun _ => true) (fun _ => some GoError.contextCanceled)
        1 0 0 0 none =
      { outcome := RetryOutcome.ctxError, invocations := 0 } :=
  ⟨C4_amended_cancellation.1 DefaultRetryConfig,
   C4_amended_cancellation.2.1 DefaultRetryConfig (fun _ => true)
     (fun _ => some GoError.contextCanceled) 0 0 0 0 none rfl⟩

/-- C6: `RetryOperation` invokes the wrapped operation at most
`MaxRetries + 1` times; and when the context never fires and the
operation always fails with an error the configuration does not
classify retryable, the operation is invoked exactly once and that
first failure is the returned outcome. -/
theorem C6_retry_invocations :
    (∀ (r : RetryConfig) (done : ℕ → Bool) (op : ℕ → Option GoError),
        (RetryOperation r done op).invocations ≤ r.MaxRetries.toNat + 1) ∧
    (∀ (r : RetryConfig) (done : ℕ → Bool) (op : ℕ → Option GoError),
        (∀ t, done t = false) →
        (∀ i, ∃ e, op i = some e ∧ r.isRetryableError (some e) = false) →
        0 ≤ r.MaxRetries →
        (RetryOperation r done op).invocations = 1 ∧
        ∃ e, op 0 = some e ∧
          (RetryOperation r done op).outcome = RetryOutcome.failure e) := by
  constructor
  · intro r done op
    have := retryLoop_invocations_le r done op (r.MaxRetries + 1).toNat 0 0 0 none
    unfold RetryOperation
    omega
  · intro r done op hdone hop hMR
    obtain ⟨e, he, hnr⟩ := hop 0
    have hfuel : (r.MaxRetries + 1).toNat = r.MaxRetries.toNat + 1 := by omega
    unfold RetryOperation
    rw [hfuel]
    simp only [retryLoop, hdone 0, Bool.false_eq_true, if_false, he]
    by_cases hM : (0 : ℤ) = r.MaxRetries
    · rw [if_pos hM]
      exact ⟨rfl, e, rfl, rfl⟩
    · rw [if_neg hM, if_pos (by simp [hnr])]
      exact ⟨rfl, e, rfl, rfl⟩

/-- C6: witness.  A live context and an operation that always fails
with a non-retryable 404 HTTP error: one invocation, that failure
returned. -/
theorem C6_retry_invocations_witness :
    (RetryOperation DefaultRetryConfig (fun _ => false)
        (fun _ => some (GoError.httpError 404 "GET" "u" "1s"))).invocations = 1 ∧
    ∃ e, (fun _ : ℕ => some (GoError.httpError 404 "GET" "u" "1s")) 0 = some e ∧
      (RetryOperation DefaultRetryConfig (fun _ => false)
          (fun _ => some (GoError.httpError 404 "GET" "u" "1s"))).outcome =
        RetryOutcome.failure e :=
  C6_retry_invocations.2 DefaultRetryConfig (fun _ => false)
    (fun _ => some (GoError.httpError 404 "GET" "u" "1s"))
    (fun _ => rfl) (fun _ => ⟨_, rfl, by decide⟩) (by decide)

/-- The forward middleware pass distributes over list append with
short-circuiting bind: the front sublist runs first and its error, if
any, aborts the rest. -/
theorem processForward_append {Req Resp E α : Type}
    (hook : GMiddleware Req Resp E → α → Except E α)
    (xs ys : List (GMiddleware Req Resp E)) (x : α) :
    processForward hook (xs ++ ys) x =
      (processForward hook xs x).bind (processForward hook ys) := by
  induction xs generalizing x with
  | nil => simp [processForward, Except.bind]
  | cons m rest ih =>
    simp only [List.cons_append, processForward]
    cases hook m x with
    | error e => simp [Except.bind]
    | ok y => simp [Except.bind, ih]

/-- C7: the middleware chain applies request hooks in insertion order
(front to back) and response hooks in strict reverse insertion order
(back to front), an error from any middleware aborting the remaining
chain: processing an appended chain factors through short-circuiting
bind, forwards for requests and reversed for responses, and a
singleton chain applies exactly its middleware's hook. -/
theorem C7_chain_order :
    (∀ (Req Resp E : Type) (xs ys : List (GMiddleware Req Resp E)) (req : Req),
        MiddlewareChain.ProcessRequest ⟨xs ++ ys⟩ req =
          (MiddlewareChain.ProcessRequest ⟨xs⟩ req).bind
            (fun r => MiddlewareChain.ProcessRequest (⟨ys⟩ : MiddlewareChain Req Resp E) r)) ∧
    (∀ (Req Resp E : Type) (m : GMiddleware Req Resp E) (req : Req),
        MiddlewareChain.ProcessRequest ⟨[m]⟩ req = m.ProcessRequest req) ∧
    (∀ (Req Resp E : Type) (xs ys : List (GMiddleware Req Resp E)) (resp : Resp),
        MiddlewareChain.ProcessResponse ⟨xs ++ ys⟩ resp =
          (MiddlewareChain.ProcessResponse ⟨ys⟩ resp).bind
            (fun s => MiddlewareChain.ProcessResponse (⟨xs⟩ : MiddlewareChain Req Resp E) s)) ∧
    (∀ (Req Resp E : Type) (m : GMiddleware Req Resp E) (resp : Resp),
        MiddlewareChain.ProcessResponse ⟨[m]⟩ resp = m.ProcessResponse resp) := by
  refine ⟨?_, ?_, ?_, ?_⟩
  · intro Req Resp E xs ys req
    exact processForward_append _ xs ys req
  · intro Req Resp E m req
    simp only [MiddlewareChain.ProcessRequest, processForward]
    cases m.ProcessRequest req <;> rfl
  · intro Req Resp E xs ys resp
    simp only [MiddlewareChain.ProcessResponse, List.reverse_append]
    exact processForward_append _ ys.reverse xs.reverse resp
  · intro Req Resp E m resp
    simp only [MiddlewareChain.ProcessResponse, List.reverse_singleton, processForward]
    cases m.ProcessResponse resp <;> rfl

/-- Looking up the registered type after registering a batch of
handlers appends the batch to whatever was already registered. -/
theorem registerHandlers_lookup (hs : List WebhookHandler) (w : WebhookManager)
    (ty : String) :
    (registerHandlers w ty hs).handlers ty =
      (match hs with
       | [] => w.handlers ty
       | _ => some (((w.handlers ty).getD []) ++ hs)) := by
  induction hs generalizing w with
  | nil => simp [registerHandlers]
  | cons h t ih =>
    simp only [registerHandlers, List.foldl_cons]
    have step := ih (w.RegisterHandler ty h)
    simp only [registerHandlers] at step
    rw [step]
    cases t with
    | nil => simp [WebhookManager.RegisterHandler]
    | cons h2 t2 => simp [WebhookManager.RegisterHandler]

/-- C8: dispatching a well-formed event after registering a list of
handlers for its type invokes every registered handler exactly once
(one recorded outcome per handler, a failing handler not affecting
the rest), returns the aggregate error listing exactly the failing
handlers' errors when at least one fails, and returns success when
none fail — in particular when no handler is registered. -/
theorem C8_dispatch_all_handlers (hs : List WebhookHandler) (ev : WebhookEvent) :
    (registerHandlers NewWebhookManager ev.EventType hs).ProcessWebhook (some ev) =
      ((if (hs.map fun h => h ev).filterMap id = [] then WebhookProcessResult.success
        else WebhookProcessResult.aggregateError ((hs.map fun h => h ev).filterMap id)),
       hs.map fun h => h ev) := by
  have hl := registerHandlers_lookup hs NewWebhookManager ev.EventType
  cases hs with
  | nil =>
    simp only [WebhookManager.ProcessWebhook, hl]
    simp [NewWebhookManager]
  | cons h t =>
    have hl2 : (registerHandlers NewWebhookManager ev.EventType (h :: t)).handlers ev.EventType
        = some (h :: t) := by
      rw [hl]
      simp [NewWebhookManager]
    simp only [WebhookManager.ProcessWebhook, hl2]

/-- C3: the webhook server does not verify payload signatures — with a
non-empty configured secret, a POST whose payload carries no valid
signature is still dispatched to `ProcessWebhook` (the
signature-verification block is an empty TODO in the source), so the
claimed rejection before dispatch does not happen. -/
theorem C3_unsigned_payload_dispatched :
    ("s" ≠ "") ∧
    handleWebhook "s" NewWebhookManager
        { method := "POST", bodyReadOk := true,
          parsedBody := some { ID := "1", EventType := "t", Timestamp := 0,
                               Data := [], Metadata := [] },
          signatureValid := false } =
      (200, true) := by
  exact ⟨by decide, rfl⟩

/-- C2: on the default configuration (RateLimit 60, commented in the
source as requests per minute), `NewFireflyClientWithConfig` attaches
`rate.NewLimiter(rate.Limit 60, 1)`: a refill rate of 60 tokens per
second with burst 1 — not the claimed 60/60 = 1 token per second. -/
theorem C2_limiter_rate :
    NewFireflyClientWithConfig
        (some { DefaultClientConfig with BaseURL := "https://example.com" }) =
      Except.ok { limit := 60, burst := 1 } ∧
    (60 : ℚ) ≠ 60 / 60 := by
  constructor
  · simp only [NewFireflyClientWithConfig, DefaultClientConfig]
    rw [if_neg (by decide : ¬ ("https://example.com" = ""))]
    norm_num [Except.ok.injEq, RateLimiterSpec.mk.injEq]
  · norm_num

/-- C9: counterexample.  With an OAuth2 config present but incomplete
(every required field empty), `ExchangeOAuth2Code` performs no
configuration-completeness check and proceeds straight to the network
exchange instead of failing without one. -/
theorem C9_counterexample :
    ExchangeOAuth2Code (some ⟨"", "", [], "", "", ""⟩) "code" "st" =
      OAuth2Outcome.proceeds ∧
    OAuth2Outcome.proceeds ≠ OAuth2Outcome.failNoNetwork "oauth2_configuration_incomplete" := by
  exact ⟨rfl, by decide⟩

/-- C9 (amended): the client-credentials and URL-generation operations
validate their required fields and fail with an oauth2 sub-code
(`oauth2_not_configured`, `oauth2_configuration_incomplete`) before
any network activity; the code-exchange and refresh operations check
only that the OAuth2 config is present (failing with
`oauth2_not_configured` without network when absent) and with a
present config — complete or not — proceed to the network exchange. -/
theorem C9_amended_validation :
    (GetOAuth2ClientCredentialsToken none =
        OAuth2Outcome.failNoNetwork "oauth2_not_configured") ∧
    (∀ c : OAuth2Config, (c.ClientID = "" ∨ c.ClientSecret = "" ∨ c.TokenURL = "") →
        GetOAuth2ClientCredentialsToken (some c) =
          OAuth2Outcome.failNoNetwork "oauth2_configuration_incomplete") ∧
    (∀ c : OAuth2Config, ¬ (c.ClientID = "" ∨ c.ClientSecret = "" ∨ c.TokenURL = "") →
        GetOAuth2ClientCredentialsToken (some c) = OAuth2Outcome.proceeds) ∧
    (∀ state, GenerateOAuth2AuthURL none state =
        OAuth2Outcome.failNoNetwork "oauth2_not_configured") ∧
    (∀ (c : OAuth2Config) state,
        (c.ClientID = "" ∨ c.AuthURL = "" ∨ c.RedirectURL = "") →
        GenerateOAuth2AuthURL (some c) state =
          OAuth2Outcome.failNoNetwork "oauth2_configuration_incomplete") ∧
    (∀ (c : OAuth2Config) state,
        ¬ (c.ClientID = "" ∨ c.AuthURL = "" ∨ c.RedirectURL = "") →
        GenerateOAuth2AuthURL (some c) state = OAuth2Outcome.proceeds) ∧
    (∀ code state, ExchangeOAuth2Code none code state =
        OAuth2Outcome.failNoNetwork "oauth2_not_configured") ∧
    (∀ (c : OAuth2Config) code state,
        ExchangeOAuth2Code (some c) code state = OAuth2Outcome.proceeds) ∧
    (∀ tk, RefreshOAuth2Token none tk =
        OAuth2Outcome.failNoNetwork "oauth2_not_configured") ∧
    (∀ (c : OAuth2Config) tk, RefreshOAuth2Token (some c) tk = OAuth2Outcome.proceeds) := by
  refine ⟨rfl, ?_, ?_, fun _ => rfl, ?_, ?_, fun _ _ => rfl, fun _ _ _ => rfl,
    fun _ => rfl, fun _ _ => rfl⟩
  · intro c h
    simp only [GetOAuth2ClientCredentialsToken, if_pos h]
  · intro c h
    simp only [GetOAuth2ClientCredentialsToken, if_neg h]
  · intro c state h
    simp only [GenerateOAuth2AuthURL, if_pos h]
  · intro c state h
    simp only [GenerateOAuth2AuthURL, if_neg h]

/-- C9: witness.  An all-empty config makes the client-credentials and
URL-generation operations fail with the incompleteness sub-code, and
a fully populated config lets client-credentials proceed. -/
theorem C9_amended_validation_witness :
    GetOAuth2ClientCredentialsToken (some ⟨"", "", [], "", "", ""⟩) =
      OAuth2Outcome.failNoNetwork "oauth2_configuration_incomplete" ∧
    GenerateOAuth2AuthURL (some ⟨"", "", [], "", "", ""⟩) "st" =
      OAuth2Outcome.failNoNetwork "oauth2_configuration_incomplete" ∧
    GetOAuth2ClientCredentialsToken (some ⟨"id", "sec", [], "r", "a", "t"⟩) =
      OAuth2Outcome.proceeds :=
  ⟨C9_amended_validation.2.1 ⟨"", "", [], "", "", ""⟩ (Or.inl rfl),
   C9_amended_validation.2.2.2.2.1 ⟨"", "", [], "", "", ""⟩ "st" (Or.inl rfl),
   C9_amended_validation.2.2.1 ⟨"id", "sec", [], "r", "a", "t"⟩ (by decide)⟩

end Firefly
